import Mathlib

/-!
Verification of the job-submission module (src/cluster/job.py) against its
natural-language specification.

The Python module is shallowly embedded below: the script-text generation of
`Job.__init__`, the identifier parsing and retry loop of `submit_file`, the
dependency-flag construction, `Script.write_file`, `Script.__getattr__`,
`Function.__init__` (whose first statement's name lookup is modelled
against the module's import list), and
`clean`.  Python strings are Lean `String`s (lists of characters); `str.join`,
`str.split`, `str.rstrip` and `int()` are modelled explicitly below.  The
filesystem effects of `write_file` and `clean` are modelled by explicit state
passing over small association-list filesystems.
-/

namespace Fyrd

/-- The process-wide backend selector QUEUE (one of slurm, torque, normal). -/
inductive Queue where
  | slurm
  | torque
  | normal
deriving DecidableEq, Repr

/-- A single apostrophe character, used inside the generated date commands. -/
def sq : String := String.mk [Char.ofNat 39]

/-- Python's sep.join for sep = newline: models the '\n'.join(...) calls of
`Job.__init__` (job.py:328, 331). -/
def joinLines : List String → String
  | [] => ""
  | [s] => s
  | s :: t :: rest => s ++ "\n" ++ joinLines (t :: rest)

/-- The sanitized inputs of `Job.__init__` (job.py:203-218), after the
argument sanitization at the top of the constructor: `name` is a string,
`cores` defaults to 1, `modules` has been normalized to a list (the empty
list standing for the falsy values None and []), `usedir` is the absolute
working directory, and `command` is the final command string after the
function-wrapping and args-collapsing steps (job.py:249-258).  `time`,
`mem` and `partition` are `none` when unset (Python None); the empty string
is kept distinct because Python's `if partition:` is also false on "". -/
structure JobParams where
  name : String
  command : String
  usedir : String
  cores : Nat
  time : Option String
  mem : Option String
  partition : Option String
  modules : List String

/-- The `module load ...` preamble accumulated by the loop at job.py:262-264. -/
def moduleLoads : List String → String
  | [] => ""
  | m :: ms => "module load " ++ m ++ "\n" ++ moduleLoads ms

/-- The date command line emitted before and after the job payload. -/
def dateLine : String := "date +" ++ sq ++ "%d-%H:%M:%S" ++ sq

/-- The backend-independent tail of the pre-command block (job.py:265-269):
cd into the working directory, a timestamp, and the announcement line. -/
def precmdTail (usedir name : String) : String :=
  "cd " ++ usedir ++ "\n" ++ dateLine ++ "\n" ++ "echo \"Running " ++ name ++ "\"" ++ "\n"

/-- The full pre-command block `precmd` of job.py:261-269. -/
def precmd (usedir name : String) (modules : List String) : String :=
  moduleLoads modules ++ precmdTail usedir name

/-- The backend-independent post-command block `pstcmd` of job.py:270-277:
exit-code capture, "Done", a timestamp, and a stderr diagnostic on nonzero
exit. -/
def pstcmd : String :=
  "exitcode=$?" ++ "\n" ++ "echo Done" ++ "\n" ++ dateLine ++ "\n" ++
  "if [[ $exitcode != 0 ]]; then" ++ "\n" ++
  "    echo Exited with code: $? >&2" ++ "\n" ++ "fi" ++ "\n"

/-- An optional directive line: `if field:` followed by a single append in
the source (job.py:284-291, 307-313).  Mirrors Python truthiness on the
stored string: None and "" both produce nothing. -/
def optDirective (v : Option String) (render : String → String) : List String :=
  match v with
  | none => []
  | some s => if s.isEmpty then [] else [render s]

/-- os.path.join for an absolute directory and a relative name, as used at
job.py:282, 296, 297, 305, 321 (modelled for `usedir` not ending in a slash
and `name` not absolute, which is how `Job.__init__` produces them). -/
def pjoin (dir name : String) : String := dir ++ "/" ++ name

/-- The `sub_script` list built for QUEUE == 'slurm' (job.py:281-296).
Elements are the exact strings appended in the source; the rendered text is
their '\n'-join. -/
def slurmSubChunks (p : JobParams) : List String :=
  ["#!/bin/bash"]
  ++ optDirective p.partition (fun q => "#SBATCH -p " ++ q)
  ++ ["#SBATCH --ntasks 1", "#SBATCH --cpus-per-task " ++ toString p.cores]
  ++ optDirective p.time (fun t => "#SBATCH --time=" ++ t)
  ++ optDirective p.mem (fun m => "#SBATCH --mem=" ++ m)
  ++ ["#SBATCH -o " ++ p.name ++ ".cluster.out",
      "#SBATCH -e " ++ p.name ++ ".cluster.err",
      "cd " ++ p.usedir,
      "srun bash " ++ pjoin p.usedir p.name ++ ".script"]

/-- The `exe_script` list built for QUEUE == 'slurm' (job.py:298-303). -/
def slurmExeChunks (p : JobParams) : List String :=
  ["#!/bin/bash", "mkdir -p $LOCAL_SCRATCH",
   precmd p.usedir p.name p.modules,
   p.command ++ "\n",
   pstcmd]

/-- The `sub_script` list built for QUEUE == 'torque' (job.py:304-319). -/
def torqueSubChunks (p : JobParams) : List String :=
  ["#!/bin/bash"]
  ++ optDirective p.partition (fun q => "#PBS -q " ++ q)
  ++ ["#PBS -l nodes=1:ppn=" ++ toString p.cores]
  ++ optDirective p.time (fun t => "#PBS -l walltime=" ++ t)
  ++ optDirective p.mem (fun m => "#PBS mem=" ++ m ++ "MB")
  ++ ["#PBS -o " ++ p.name ++ ".cluster.out",
      "#PBS -e " ++ p.name ++ ".cluster.err" ++ "\n",
      "mkdir -p $LOCAL_SCRATCH",
      precmd p.usedir p.name p.modules,
      p.command,
      pstcmd]

/-- The `sub_script` list built for QUEUE == 'normal' (job.py:320-325). -/
def normalSubChunks (p : JobParams) : List String :=
  ["#!/bin/bash" ++ "\n",
   precmd p.usedir p.name p.modules,
   p.command ++ "\n",
   pstcmd]

/-- Rendered slurm submission script text ('\n'.join(sub_script), job.py:328). -/
def slurmSubText (p : JobParams) : String := joinLines (slurmSubChunks p)

/-- Rendered slurm execution script text ('\n'.join(exe_script), job.py:331). -/
def slurmExeText (p : JobParams) : String := joinLines (slurmExeChunks p)

/-- Rendered torque submission script text. -/
def torqueSubText (p : JobParams) : String := joinLines (torqueSubChunks p)

/-- Rendered local-mode submission script text. -/
def normalSubText (p : JobParams) : String := joinLines (normalSubChunks p)

/-- The slurm submission script path `scrpt` (job.py:282). -/
def slurmSubPath (p : JobParams) : String :=
  pjoin p.usedir (p.name ++ ".cluster.sbatch")

/-- The slurm execution script path `exe_scrpt` (job.py:297). -/
def slurmExePath (p : JobParams) : String :=
  pjoin p.usedir (p.name ++ ".script")

/-- The torque submission script path (job.py:305). -/
def torqueSubPath (p : JobParams) : String :=
  pjoin p.usedir (p.name ++ ".cluster.qsub")

/-- The local-mode submission script path (job.py:321). -/
def normalSubPath (p : JobParams) : String :=
  pjoin p.usedir (p.name ++ ".cluster")

/-- The torque directive header and scratch-dir line: everything of
`torqueSubChunks` that precedes the pre-command block. -/
def torqueFront (p : JobParams) : List String :=
  ["#!/bin/bash"]
  ++ optDirective p.partition (fun q => "#PBS -q " ++ q)
  ++ ["#PBS -l nodes=1:ppn=" ++ toString p.cores]
  ++ optDirective p.time (fun t => "#PBS -l walltime=" ++ t)
  ++ optDirective p.mem (fun m => "#PBS mem=" ++ m ++ "MB")
  ++ ["#PBS -o " ++ p.name ++ ".cluster.out",
      "#PBS -e " ++ p.name ++ ".cluster.err" ++ "\n",
      "mkdir -p $LOCAL_SCRATCH"]

/-!  Submission protocol (`submit_file`, job.py:450-527): dependency flags,
identifier parsing, and the retry loop. -/

/-- Python's single-character `str.split(sep)` worker: splits at every
occurrence of `sep`, keeping empty fields; `acc` holds the characters of the
current field, reversed. -/
def splitCharAux (sep : Char) : List Char → List Char → List String
  | [], acc => [String.mk acc.reverse]
  | c :: rest, acc =>
    if c = sep then String.mk acc.reverse :: splitCharAux sep rest []
    else splitCharAux sep rest (c :: acc)

/-- Python `s.split(sep)` for a one-character separator. -/
def pySplitChar (sep : Char) (s : String) : List String :=
  splitCharAux sep s.data []

/-- The ASCII whitespace characters stripped by Python's `str.rstrip()` /
`str.strip()` (space, tab, newline, carriage return, vertical tab,
form feed). -/
def pyIsSpace (c : Char) : Bool :=
  c = ' ' || c = '\t' || c = '\n' || c = '\r' || c = Char.ofNat 11 || c = Char.ofNat 12

/-- Python `s.rstrip()` (no argument): drop trailing whitespace. -/
def pyRstrip (s : String) : String :=
  String.mk (s.data.reverse.dropWhile pyIsSpace).reverse

/-- Python `s.strip()` (no argument): drop whitespace on both ends. -/
def pyStrip (s : String) : String :=
  String.mk ((s.data.dropWhile pyIsSpace).reverse.dropWhile pyIsSpace).reverse

/-- The numeric value of a nonempty all-digit character list, or `none`. -/
def pyDigits (l : List Char) : Option Nat :=
  if l ≠ [] ∧ l.all Char.isDigit then
    some (l.foldl (fun a c => 10 * a + (c.toNat - 48)) 0)
  else none

/-- Python `int(s)` on a string: optional surrounding whitespace, optional
sign, then decimal digits; `none` models the ValueError raised otherwise.
(The underscore digit grouping accepted by CPython is not modelled; no
input considered here contains an underscore.) -/
def pyInt (s : String) : Option Int :=
  match (pyStrip s).data with
  | [] => none
  | c :: rest =>
    if c = '-' then (pyDigits rest).map (fun n => -(n : Int))
    else if c = '+' then (pyDigits rest).map (fun n => (n : Int))
    else (pyDigits (c :: rest)).map (fun n => (n : Int))

/-- Slurm identifier parsing (job.py:492):
`int(check_output(args).decode().rstrip().split(' ')[-1])`. -/
def slurmParseId (stdout : String) : Option Int :=
  pyInt ((pySplitChar ' ' (pyRstrip stdout)).getLastD "")

/-- Torque identifier parsing (job.py:512):
`int(check_output(args).decode().rstrip().split('.')[0])`. -/
def torqueParseId (stdout : String) : Option Int :=
  pyInt ((pySplitChar '.' (pyRstrip stdout)).headD "")

/-- Boolean disequality with a fixed character. -/
def neChar (sep : Char) : Char → Bool := fun c => !(c == sep)

/-- The last space-free suffix of `s`: the characters after the last space
character.  Equals `s.split(' ')[-1]`, proven in `pySplitChar_getLastD`. -/
def lastSpaceTok (s : String) : String :=
  String.mk (s.data.reverse.takeWhile (neChar ' ')).reverse

/-- The characters of `s` before the first dot.  Equals `s.split('.')[0]`,
proven in `pySplitChar_headD`. -/
def beforeFirstDot (s : String) : String :=
  String.mk (s.data.takeWhile (neChar '.'))

/-- Python `str.split()` with no argument — the "whitespace-delimited
tokens" of the claim C4 wording: split on runs of whitespace, no empty
fields.  Used only as the spec-side reading for comparison with the code's
`split(' ')`. -/
def pySplitWsAux : List Char → List Char → List String
  | [], [] => []
  | [], acc => [String.mk acc.reverse]
  | c :: rest, acc =>
    if pyIsSpace c then
      match acc with
      | [] => pySplitWsAux rest []
      | _ :: _ => String.mk acc.reverse :: pySplitWsAux rest []
    else pySplitWsAux rest (c :: acc)

/-- Python `s.split()` (no argument). -/
def pySplitWs (s : String) : List String := pySplitWsAux s.data []

/-- Modelled from the spec wording of C4 ("the trailing whitespace-delimited
token of the command's standard output converted to an integer"), for
comparison with the code's `slurmParseId`. -/
def specSlurmWsId (stdout : String) : Option Int :=
  pyInt ((pySplitWs stdout).getLastD "")

/-- A dependency value accepted after the normalization at job.py:474-479:
an integer or a string. -/
inductive Dep where
  | num (n : Int)
  | str (s : String)
deriving DecidableEq, Repr

/-- Python `str(i)` on a dependency value. -/
def pyStrOfDep : Dep → String
  | Dep.num n => toString n
  | Dep.str s => s

/-- `dependencies = [str(i) for i in dependencies]` (job.py:479). -/
def normalizeDeps (l : List Dep) : List String := l.map pyStrOfDep

/-- Python `sep.join(l)` for an arbitrary separator. -/
def joinSep (sep : String) : List String → String
  | [] => ""
  | [s] => s
  | s :: t :: rest => s ++ sep ++ joinSep sep (t :: rest)

/-- The slurm dependency flag (job.py:483-484):
`'--dependency=afterok:{}'.format(':'.join([str(d) for d in dependencies]))`
(the inner `str(d)` is the identity here: the elements are strings already). -/
def slurmDepFlag (deps : List String) : String :=
  "--dependency=afterok:" ++ joinSep ":" deps

/-- The torque dependency flag (job.py:503-504):
`'-W depend={}'.format(','.join(['afterok:' + d for d in dependencies]))`. -/
def torqueDepFlag (deps : List String) : String :=
  "-W depend=" ++ joinSep "," (deps.map (fun d => "afterok:" ++ d))

/-- The argv the slurm path hands to `check_output` (job.py:482-487):
deps are the already-normalized identifier strings; an empty list models
the falsy `dependencies` branch. -/
def slurmSubmitArgs (deps : List String) (script_file : String) : List String :=
  if deps.isEmpty then ["sbatch", script_file]
  else ["sbatch", slurmDepFlag deps, script_file]

/-- The argv the torque path hands to `check_output` (job.py:502-507). -/
def torqueSubmitArgs (deps : List String) (script_file : String) : List String :=
  if deps.isEmpty then ["qsub", script_file]
  else ["qsub", torqueDepFlag deps, script_file]

/-- Observable trace of one `submit_file` retry loop (job.py:488-500 and
508-520): the final result, how many times `check_output` was invoked, and
how many `sleep(1)` pauses (one second each) were performed. -/
structure SubmitTrace (ε α : Type) where
  result : Except ε α
  attempts : Nat
  sleeps : Nat
deriving Repr

/-- The `while True` retry loop of `submit_file`.  `attempt i` is the
outcome of the `(i+1)`-th `check_output` call: `ok stdout` on exit 0,
`error e` for a `CalledProcessError e`.  `remaining` is `5 - count` for the
source's counter (which starts at 0 and aborts, re-raising the current
error, when `count == 5`); a failed attempt with retries remaining sleeps
one second and continues. -/
def retryLoop {ε α : Type} (attempt : Nat → Except ε α) :
    Nat → Nat → Nat → SubmitTrace ε α
  | remaining, idx, sleeps =>
    match attempt idx with
    | Except.ok a => ⟨Except.ok a, idx + 1, sleeps⟩
    | Except.error e =>
      match remaining with
      | 0 => ⟨Except.error e, idx + 1, sleeps⟩
      | r + 1 => retryLoop attempt r (idx + 1) (sleeps + 1)

/-- The slurm submission loop: run the retry loop (count starts at 0, so 5
retries remain) and parse a successful stdout with `slurmParseId`. -/
def submitSlurmTrace {ε : Type} (attempt : Nat → Except ε String) :
    SubmitTrace ε (Option Int) :=
  let t := retryLoop attempt 5 0 0
  ⟨t.result.map slurmParseId, t.attempts, t.sleeps⟩

/-- The torque submission loop. -/
def submitTorqueTrace {ε : Type} (attempt : Nat → Except ε String) :
    SubmitTrace ε (Option Int) :=
  let t := retryLoop attempt 5 0 0
  ⟨t.result.map torqueParseId, t.attempts, t.sleeps⟩

/-!  Cleanup (`clean`, job.py:597-635). -/

/-- The suffix list computed at job.py:613-619 for the active backend. -/
def cleanExtensions : Queue → List String
  | Queue.normal => [".cluster.err", ".cluster.out", ".cluster"]
  | Queue.slurm => [".cluster.err", ".cluster.out", ".cluster.sbatch", ".cluster.script"]
  | Queue.torque => [".cluster.err", ".cluster.out", ".cluster.qsub"]

/-- Python `s.endswith(suffix)`. -/
def strEndsWith (s suffix : String) : Bool :=
  suffix.data.reverse.isPrefixOf s.data.reverse

/-- A filesystem of regular files for `clean`: the process working
directory (absolute) and the set of existing regular files, each as an
(absolute directory, file name) pair. -/
structure FS where
  cwd : String
  files : List (String × String)
deriving DecidableEq, Repr

/-- `os.listdir(os.path.abspath(directory))`: the names in `directory`
(given here already absolute), in filesystem order. -/
def fsListDir (fs : FS) (directory : String) : List String :=
  (fs.files.filter (fun pr => pr.1 = directory)).map Prod.snd

/-- `os.path.isfile(name)` on a bare file name: resolved against the
process working directory, exactly as the source does at job.py:622. -/
def fsIsFileRel (fs : FS) (name : String) : Bool :=
  fs.files.contains (fs.cwd, name)

/-- `os.remove(name)` on a bare file name, again resolved against the
working directory (job.py:632).  (Every removal `clean` reaches exists, and
no file matches two suffixes of one backend's list, so the FileNotFoundError
case is unreachable and removal is modelled as a filter.) -/
def fsRemoveRel (fs : FS) (name : String) : FS :=
  ⟨fs.cwd, fs.files.filter (fun pr => pr ≠ (fs.cwd, name))⟩

/-- `clean(directory)` (job.py:597-635): list the directory, keep the names
that are regular files *relative to the working directory*, return `[]` if
none, else delete every name ending in a backend suffix and return the
deleted names.  The external queue check and the debug log call are
side-effect-free collaborators and are not modelled. -/
def clean (q : Queue) (fs : FS) (directory : String) : FS × List String :=
  let extensions := cleanExtensions q
  let files := (fsListDir fs directory).filter (fun n => fsIsFileRel fs n)
  if files.isEmpty then (fs, [])
  else
    files.foldl
      (fun st f =>
        extensions.foldl
          (fun st₂ ext =>
            if strEndsWith f ext then (fsRemoveRel st₂.1 f, st₂.2 ++ [f]) else st₂)
          st)
      (fs, [])

/-!  `Script.write_file` (job.py:346-354) over a path-to-contents disk. -/

/-- A disk mapping absolute paths to file contents. -/
def Disk : Type := List (String × String)

/-- `os.path.exists(path)`. -/
def diskExists (d : Disk) (path : String) : Bool :=
  (List.map Prod.fst d).contains path

/-- `open(path, 'w').write(text)`: replace or create the file. -/
def diskWrite (d : Disk) (path text : String) : Disk :=
  (path, text) :: List.filter (fun pr => pr.1 ≠ path) d

/-- The in-memory `Script` object: the script text, the target file name,
and the `written` flag (class default False, job.py:339). -/
structure ScriptObj where
  script : String
  file_name : String
  written : Bool
deriving DecidableEq, Repr

/-- `Script.write_file(overwrite=False)` (job.py:346-354): write
`script + '\n'` and set `written`, returning the path, when `overwrite` is
requested or the target does not exist; otherwise change nothing and return
None. -/
def write_file (d : Disk) (s : ScriptObj) (overwrite : Bool) :
    Disk × ScriptObj × Option String :=
  if overwrite || !(diskExists d s.file_name) then
    (diskWrite d s.file_name (s.script ++ "\n"), { s with written := true }, some s.file_name)
  else (d, s, none)

/-- `Script.__getattr__` (job.py:356-359) returns a value for every
attribute name that normal lookup missed: `os.path.exists(file_name)` for
'exists' and Python's implicit None for everything else.  `Function`
inherits this unchanged. -/
inductive PyAttr where
  | pyNone
  | pyBool (b : Bool)
deriving DecidableEq, Repr

/-- The `__getattr__` fallback, evaluated against the disk at access time. -/
def script_getattr (d : Disk) (s : ScriptObj) (attr : String) : PyAttr :=
  if attr = "exists" then PyAttr.pyBool (diskExists d s.file_name) else PyAttr.pyNone

/-!  The remote-function wrapper (`Function.__init__`, job.py:375-414) and
the runner script it generates (`FUNC_RUNNER`, job.py:93-124). -/

/-- A Python value as far as callability is concerned. -/
inductive PyObj where
  | callable (tag : Nat)
  | str (s : String)
  | int (n : Int)
  | noneObj
deriving DecidableEq, Repr

/-- `hasattr(x, '__call__')`. -/
def isCallable : PyObj → Bool
  | PyObj.callable _ => true
  | _ => false

/-- The argument shapes `Function.__init__` accepts (a tuple, a dict, or a
single object, per the dispatch the generated runner is written to do at
job.py:102-110). -/
inductive PyArgs where
  | tup (l : List PyObj)
  | dict (d : List (String × PyObj))
  | single (o : PyObj)

/-- The in-memory `Function` object: file names and the pieces its script
text is generated from. -/
structure FunctionObj where
  file_name : String
  pickle_file : String
  outfile : String
  func : PyObj
  args : Option PyArgs
  imports : List String

/-- The Python error message for an undefined name `n`. -/
def nameErrorMsg (n : String) : String :=
  "NameError: name " ++ sq ++ n ++ sq ++ " is not defined"

/-- The names bound at module level of job.py when `Function.__init__`
runs: the import block (job.py:51-85) plus the module-level constants,
classes and functions defined in the file.  `sys` is NOT among them (and it
is not a Python builtin either), which is what decides C9. -/
def jobModuleGlobals : List String :=
  ["os", "re", "sleep", "ModuleType", "dedent", "check_output",
   "CalledProcessError", "Pool", "pool", "run", "logme", "queue",
   "ClusterError", "QUEUE", "ALLOWED_QUEUES", "POOL", "FUNC_RUNNER",
   "KWARGS", "ARGINFO", "Job", "Script", "Function", "submit",
   "submit_file", "make_job", "make_job_file", "clean"]

/-- A Python global-name lookup: `ok` if the name is bound, else the
NameError the interpreter raises. -/
def pyName (globals : List String) (n : String) : Except String Unit :=
  if globals.contains n then Except.ok () else Except.error (nameErrorMsg n)

/-- `Function.__init__(file_name, function, args, imports, pickle_file,
outfile)` (job.py:375-414).  Its FIRST statement (job.py:388) is
`script = '#!/usr/bin/env python{}\n'.format(sys.version[0])`, and the
module never imports `sys`, so that name lookup raises NameError before
anything else in the constructor runs — for every input, callable or not.
The unreachable remainder (which also contains the `isintsance` typo at
job.py:395 and the undefined `abspath` at job.py:344 via `super().__init__`
at job.py:414) is transcribed as the record it would build; it can never
be reached because `sys` is absent from `jobModuleGlobals`. -/
def functionInit (file_name : String) (function : PyObj) (args : Option PyArgs)
    (imports : List String) (pickle_file outfile : Option String) :
    Except String FunctionObj :=
  match pyName jobModuleGlobals "sys" with
  | Except.error e => Except.error e
  | Except.ok _ =>
      Except.ok
        { file_name := file_name
          pickle_file := pickle_file.getD (file_name ++ ".pickle.in")
          outfile := outfile.getD (file_name ++ ".pickle.out")
          func := function
          args := args
          imports := imports }

/-!  Concrete inputs used by witnesses and counterexamples. -/

/-- A concrete job: name myjob, command true, working directory /work, one
core, no partition, no wall time, no memory request, no modules. -/
def pEx : JobParams := ⟨"myjob", "true", "/work", 1, none, none, none, []⟩

/-- Attempt outcomes that fail four times and then succeed. -/
def attemptsFourFail : Nat → Except Nat String :=
  fun i => if i < 4 then Except.error i else Except.ok "4821"

/-- Attempt outcomes that fail on every attempt. -/
def attemptsAllFail : Nat → Except Nat String := fun i => Except.error i

/-- A directory /data holding exactly a.cluster.out, a.cluster and b.txt,
with the process working directory elsewhere (/home). -/
def fsBug : FS :=
  ⟨"/home", [("/data", "a.cluster.out"), ("/data", "a.cluster"), ("/data", "b.txt")]⟩

/-- The same /data directory, with the process working directory being
/data itself. -/
def fsOk : FS :=
  ⟨"/data", [("/data", "a.cluster.out"), ("/data", "a.cluster"), ("/data", "b.txt")]⟩

/-- A working directory holding only a non-matching file. -/
def fsNoMatch : FS := ⟨"/data", [("/data", "b.txt")]⟩

/-- A disk on which /w/a.sh already exists. -/
def dEx : Disk := [("/w/a.sh", "old contents")]

/-- A Script whose target file exists on `dEx`. -/
def sEx : ScriptObj := ⟨"echo hi", "/w/a.sh", false⟩

/-- A Script whose target file does not exist on `dEx`. -/
def sExNew : ScriptObj := ⟨"echo hi", "/w/b.sh", false⟩

/-- A concrete non-callable Python value. -/
def nonCallableEx : PyObj := PyObj.str "not a function"

/-!  Line-level view of the rendered scripts, for C7: each rendered text is
the '\n'-join of the physical lines listed here (proved below), so "the
text contains no directive line" is stated as a property of these lists. -/

/-- `p` is a prefix of `s` (on character lists). -/
def pfxB : List Char → List Char → Bool
  | [], _ => true
  | _ :: _, [] => false
  | a :: p, b :: s => a == b && pfxB p s

/-- The line prefixes of every optional directive and module-load line any
of the three renderers can emit (job.py:263-264, 284-291, 307-313). -/
def optDirPats : List (List Char) :=
  ["#SBATCH -p ".data, "#SBATCH --time=".data, "#SBATCH --mem=".data,
   "#PBS -q ".data, "#PBS -l walltime=".data, "#PBS mem=".data,
   "module load ".data]

/-- Does this physical line start like a partition / wall-time / memory
directive or a module-load command? -/
def lineIsOptDirective (l : String) : Bool :=
  optDirPats.any (fun pa => pfxB pa l.data)

/-- The physical lines of the pre-command block `precmd`. -/
def precmdLines (usedir name : String) (modules : List String) : List String :=
  modules.map (fun m => "module load " ++ m)
  ++ ["cd " ++ usedir, dateLine, "echo \"Running " ++ name ++ "\"", ""]

/-- The physical lines of the post-command block `pstcmd`. -/
def pstcmdLines : List String :=
  ["exitcode=$?", "echo Done", dateLine, "if [[ $exitcode != 0 ]]; then",
   "    echo Exited with code: $? >&2", "fi", ""]

/-- The physical lines of the slurm execution script, with the command's
own lines passed as `cmdLines`. -/
def slurmExeAllLines (p : JobParams) (cmdLines : List String) : List String :=
  ["#!/bin/bash", "mkdir -p $LOCAL_SCRATCH"]
  ++ precmdLines p.usedir p.name p.modules
  ++ cmdLines ++ [""]
  ++ pstcmdLines

/-- The physical lines of the torque submission script. -/
def torqueSubAllLines (p : JobParams) (cmdLines : List String) : List String :=
  ["#!/bin/bash"]
  ++ optDirective p.partition (fun q => "#PBS -q " ++ q)
  ++ ["#PBS -l nodes=1:ppn=" ++ toString p.cores]
  ++ optDirective p.time (fun t => "#PBS -l walltime=" ++ t)
  ++ optDirective p.mem (fun m => "#PBS mem=" ++ m ++ "MB")
  ++ ["#PBS -o " ++ p.name ++ ".cluster.out",
      "#PBS -e " ++ p.name ++ ".cluster.err", "",
      "mkdir -p $LOCAL_SCRATCH"]
  ++ precmdLines p.usedir p.name p.modules
  ++ cmdLines
  ++ pstcmdLines

/-- The physical lines of the local-mode submission script. -/
def normalSubAllLines (p : JobParams) (cmdLines : List String) : List String :=
  ["#!/bin/bash", ""]
  ++ precmdLines p.usedir p.name p.modules
  ++ cmdLines ++ [""]
  ++ pstcmdLines

/- Elementary string facts used throughout (Lean strings wrap `List Char`). -/

theorem strData (a b : String) : (a ++ b).data = a.data ++ b.data := by
  cases a
  cases b
  rfl

theorem strAssoc (a b c : String) : a ++ b ++ c = a ++ (b ++ c) := by
  apply String.ext
  simp [strData]

theorem strNilR (a : String) : a ++ "" = a := by
  apply String.ext
  simp [strData]

theorem strNilL (a : String) : "" ++ a = a := by
  apply String.ext
  simp [strData]

theorem joinLines_append (l₁ l₂ : List String) (h₁ : l₁ ≠ []) (h₂ : l₂ ≠ []) :
    joinLines (l₁ ++ l₂) = joinLines l₁ ++ "\n" ++ joinLines l₂ := by
  induction l₁ with
  | nil => exact absurd rfl h₁
  | cons x xs ih =>
    cases xs with
    | nil =>
      cases l₂ with
      | nil => exact absurd rfl h₂
      | cons y ys => simp only [List.cons_append, List.nil_append, joinLines]
    | cons y ys =>
      have hih := ih (by simp)
      simp only [List.cons_append] at hih ⊢
      rw [joinLines, hih, joinLines]
      simp only [strAssoc]

theorem torqueSubChunks_eq_front (p : JobParams) :
    torqueSubChunks p =
      torqueFront p ++ [precmd p.usedir p.name p.modules, p.command, pstcmd] := by
  simp only [torqueSubChunks, torqueFront, List.append_assoc, List.cons_append,
    List.nil_append, List.singleton_append]

theorem torqueFront_ne_nil (p : JobParams) : torqueFront p ≠ [] := by
  simp [torqueFront]

theorem torqueSubText_factored (p : JobParams) :
    torqueSubText p =
      joinLines (torqueFront p) ++ "\n" ++
      (precmd p.usedir p.name p.modules ++ ("\n" ++ (p.command ++ ("\n" ++ pstcmd)))) := by
  rw [torqueSubText, torqueSubChunks_eq_front,
    joinLines_append _ _ (torqueFront_ne_nil p) (by simp)]
  simp only [joinLines, strAssoc]

/-- C1: For every job name, command, and resource request, the pre-command
block and the post-command block appearing in the rendered script text are
byte-identical across the three backends: the very same string
`precmd usedir name modules` (which ends with the cd / timestamp /
"Running name" announcement) occurs verbatim in the slurm execution script,
the torque submission script, and the local submission script, and the very
same constant string `pstcmd` (exit-code capture, "Done", timestamp, stderr
diagnostic on nonzero exit) is a verbatim suffix of all three. -/
theorem c1_pre_post_blocks_identical (p : JobParams) :
    (∃ a b, slurmExeText p = a ++ precmd p.usedir p.name p.modules ++ b) ∧
    (∃ a b, torqueSubText p = a ++ precmd p.usedir p.name p.modules ++ b) ∧
    (∃ a b, normalSubText p = a ++ precmd p.usedir p.name p.modules ++ b) ∧
    (∃ a, slurmExeText p = a ++ pstcmd) ∧
    (∃ a, torqueSubText p = a ++ pstcmd) ∧
    (∃ a, normalSubText p = a ++ pstcmd) := by
  refine ⟨⟨"#!/bin/bash" ++ ("\n" ++ ("mkdir -p $LOCAL_SCRATCH" ++ "\n")),
           "\n" ++ (p.command ++ ("\n" ++ ("\n" ++ pstcmd))), ?_⟩,
          ⟨joinLines (torqueFront p) ++ "\n",
           "\n" ++ (p.command ++ ("\n" ++ pstcmd)), ?_⟩,
          ⟨"#!/bin/bash" ++ ("\n" ++ "\n"),
           "\n" ++ (p.command ++ ("\n" ++ ("\n" ++ pstcmd))), ?_⟩,
          ⟨"#!/bin/bash" ++ ("\n" ++ ("mkdir -p $LOCAL_SCRATCH" ++ ("\n" ++
            (precmd p.usedir p.name p.modules ++ ("\n" ++ (p.command ++ ("\n" ++ "\n"))))))), ?_⟩,
          ⟨joinLines (torqueFront p) ++ ("\n" ++
            (precmd p.usedir p.name p.modules ++ ("\n" ++ (p.command ++ "\n")))), ?_⟩,
          ⟨"#!/bin/bash" ++ ("\n" ++ ("\n" ++
            (precmd p.usedir p.name p.modules ++ ("\n" ++ (p.command ++ ("\n" ++ "\n")))))), ?_⟩⟩
  · simp only [slurmExeText, slurmExeChunks, joinLines, strAssoc]
  · rw [torqueSubText_factored]
    simp only [strAssoc]
  · simp only [normalSubText, normalSubChunks, joinLines, strAssoc]
  · simp only [slurmExeText, slurmExeChunks, joinLines, strAssoc]
  · rw [torqueSubText_factored]
    simp only [strAssoc]
  · simp only [normalSubText, normalSubChunks, joinLines, strAssoc]

/-!  Retry-loop unfolding lemmas. -/

theorem retryLoop_ok {ε α : Type} (attempt : Nat → Except ε α) (r idx sleeps : Nat)
    (a : α) (h : attempt idx = Except.ok a) :
    retryLoop attempt r idx sleeps = ⟨Except.ok a, idx + 1, sleeps⟩ := by
  rw [retryLoop, h]

theorem retryLoop_err_stop {ε α : Type} (attempt : Nat → Except ε α) (idx sleeps : Nat)
    (e : ε) (h : attempt idx = Except.error e) :
    retryLoop attempt 0 idx sleeps = ⟨Except.error e, idx + 1, sleeps⟩ := by
  rw [retryLoop, h]

theorem retryLoop_err_step {ε α : Type} (attempt : Nat → Except ε α) (r idx sleeps : Nat)
    (e : ε) (h : attempt idx = Except.error e) :
    retryLoop attempt (r + 1) idx sleeps = retryLoop attempt r (idx + 1) (sleeps + 1) := by
  rw [retryLoop, h]

/-- C2: for both scheduler backends, four nonzero-exit failures followed by
a success make `submit_file` return the identifier parsed from the fifth
attempt's stdout, after exactly five `check_output` invocations and four
one-second pauses; six consecutive failures make it perform exactly five
retries (six attempts in all), five pauses, and propagate the underlying
process error of the last attempt unmodified. -/
theorem c2_submit_retry {ε : Type} (attempt : Nat → Except ε String) (err : Nat → ε) :
    (∀ s : String,
      (∀ i, i < 4 → attempt i = Except.error (err i)) → attempt 4 = Except.ok s →
      submitSlurmTrace attempt = ⟨Except.ok (slurmParseId s), 5, 4⟩ ∧
      submitTorqueTrace attempt = ⟨Except.ok (torqueParseId s), 5, 4⟩) ∧
    ((∀ i, i ≤ 5 → attempt i = Except.error (err i)) →
      submitSlurmTrace attempt = ⟨Except.error (err 5), 6, 5⟩ ∧
      submitTorqueTrace attempt = ⟨Except.error (err 5), 6, 5⟩) := by
  constructor
  · intro s hf hok
    have hr : retryLoop attempt 5 0 0 = ⟨Except.ok s, 5, 4⟩ := by
      rw [show (5 : Nat) = 4 + 1 from rfl,
        retryLoop_err_step attempt 4 0 0 _ (hf 0 (by norm_num)),
        retryLoop_err_step attempt 3 1 1 _ (hf 1 (by norm_num)),
        retryLoop_err_step attempt 2 2 2 _ (hf 2 (by norm_num)),
        retryLoop_err_step attempt 1 3 3 _ (hf 3 (by norm_num)),
        retryLoop_ok attempt 1 4 4 _ hok]
    constructor
    · simp [submitSlurmTrace, hr, Except.map]
    · simp [submitTorqueTrace, hr, Except.map]
  · intro hf
    have hr : retryLoop attempt 5 0 0 = ⟨Except.error (err 5), 6, 5⟩ := by
      rw [show (5 : Nat) = 4 + 1 from rfl,
        retryLoop_err_step attempt 4 0 0 _ (hf 0 (by norm_num)),
        retryLoop_err_step attempt 3 1 1 _ (hf 1 (by norm_num)),
        retryLoop_err_step attempt 2 2 2 _ (hf 2 (by norm_num)),
        retryLoop_err_step attempt 1 3 3 _ (hf 3 (by norm_num)),
        retryLoop_err_step attempt 0 4 4 _ (hf 4 (by norm_num)),
        retryLoop_err_stop attempt 5 5 _ (hf 5 (by norm_num))]
    constructor
    · simp [submitSlurmTrace, hr, Except.map]
    · simp [submitTorqueTrace, hr, Except.map]

/-- Witness for C2 at concrete attempt streams: four failures then stdout
"4821" yields the parsed identifier 4821 with 5 attempts and 4 pauses, and
unbroken failure yields the 6th attempt's error after 6 attempts and 5
pauses. -/
theorem c2_submit_retry_witness :
    (submitSlurmTrace attemptsFourFail = ⟨Except.ok (some 4821), 5, 4⟩ ∧
     submitTorqueTrace attemptsFourFail = ⟨Except.ok (some 4821), 5, 4⟩) ∧
    (submitSlurmTrace attemptsAllFail = ⟨Except.error 5, 6, 5⟩ ∧
     submitTorqueTrace attemptsAllFail = ⟨Except.error 5, 6, 5⟩) := by
  constructor
  · exact (c2_submit_retry attemptsFourFail id).1 "4821"
      (by intro i hi; interval_cases i <;> rfl) rfl
  · exact (c2_submit_retry attemptsAllFail id).2
      (by intro i hi; interval_cases i <;> rfl)

/-- C3 (the code against the claimed naming table): for the slurm backend
the submission artifact path is `<usedir>/<name>.cluster.sbatch` as claimed
and the submission script does invoke the execution script, but the
execution artifact is written to `<name>.script`, NOT the
`<name>.cluster.script` of the claim, the module docstring, and `clean`'s
own slurm suffix list — so the generated execution script is invisible to
`clean`. -/
theorem c3_slurm_artifact_paths :
    slurmSubPath pEx = "/work/myjob.cluster.sbatch" ∧
    slurmExePath pEx = "/work/myjob.script" ∧
    slurmExePath pEx ≠ "/work/myjob.cluster.script" ∧
    ("srun bash " ++ slurmExePath pEx) ∈ slurmSubChunks pEx ∧
    ".cluster.script" ∈ cleanExtensions Queue.slurm ∧
    strEndsWith (slurmExePath pEx) ".cluster.script" = false ∧
    (cleanExtensions Queue.slurm).all (fun e => !(strEndsWith (slurmExePath pEx) e)) = true := by
  refine ⟨rfl, rfl, by decide, by decide, by decide, by decide, by decide⟩

/-!  Properties of the split helpers, used for C4. -/

theorem takeWhile_all {α : Type} (p : α → Bool) :
    ∀ l : List α, (∀ x ∈ l, p x = true) → l.takeWhile p = l := by
  intro l
  induction l with
  | nil => intro _; rfl
  | cons a l ih =>
    intro h
    simp only [List.takeWhile_cons, h a (List.mem_cons_self a l),
      ih (fun x hx => h x (List.mem_cons_of_mem a hx)), if_true]

theorem takeWhile_append_stop {α : Type} (p : α → Bool) (a : α) (ha : p a = false) :
    ∀ l₁ l₂ : List α, (l₁ ++ a :: l₂).takeWhile p = l₁.takeWhile p := by
  intro l₁ l₂
  induction l₁ with
  | nil => simp [List.takeWhile_cons, ha]
  | cons x xs ih =>
    cases hx : p x with
    | false => simp [List.takeWhile_cons, hx]
    | true => simp [List.takeWhile_cons, hx, ih]

theorem splitCharAux_ne_nil (sep : Char) :
    ∀ l acc : List Char, splitCharAux sep l acc ≠ [] := by
  intro l
  induction l with
  | nil => intro acc; simp [splitCharAux]
  | cons c rest ih =>
    intro acc
    by_cases h : c = sep
    · simp [splitCharAux, h]
    · simpa [splitCharAux, h] using ih (c :: acc)

theorem splitCharAux_getLast (sep : Char) :
    ∀ l acc : List Char, (∀ c ∈ acc, c ≠ sep) →
      (splitCharAux sep l acc).getLast? =
        some (String.mk ((acc.reverse ++ l).reverse.takeWhile (neChar sep)).reverse) := by
  intro l
  induction l with
  | nil =>
    intro acc hacc
    simp only [splitCharAux, List.getLast?_singleton, List.append_nil, List.reverse_reverse]
    rw [takeWhile_all (neChar sep) acc (fun x hx => by simp [neChar, hacc x hx])]
  | cons c rest ih =>
    intro acc hacc
    by_cases h : c = sep
    · subst h
      rw [show splitCharAux c (c :: rest) acc = String.mk acc.reverse :: splitCharAux c rest []
        from by simp [splitCharAux]]
      obtain ⟨y, ys, hys⟩ := List.exists_cons_of_ne_nil (splitCharAux_ne_nil c rest [])
      rw [hys, List.getLast?_cons_cons, ← hys, ih [] (by simp)]
      have hrw : (acc.reverse ++ c :: rest).reverse = rest.reverse ++ c :: acc := by
        simp [List.reverse_append, List.reverse_cons, List.append_assoc]
      rw [hrw, takeWhile_append_stop (neChar c) c (by simp [neChar]) rest.reverse acc]
      simp
    · simp only [splitCharAux, if_neg h]
      rw [ih (c :: acc) ?_]
      · have hrw : (c :: acc).reverse ++ rest = acc.reverse ++ c :: rest := by
          simp [List.reverse_cons, List.append_assoc]
        rw [hrw]
      · intro x hx
        rcases List.mem_cons.mp hx with rfl | hx2
        · exact h
        · exact hacc x hx2

theorem pySplitChar_getLastD (sep : Char) (s : String) :
    (pySplitChar sep s).getLastD "" =
      String.mk (s.data.reverse.takeWhile (neChar sep)).reverse := by
  rw [List.getLastD_eq_getLast?, pySplitChar,
    splitCharAux_getLast sep s.data [] (by simp)]
  simp

theorem splitCharAux_headD (sep : Char) :
    ∀ l acc : List Char,
      (splitCharAux sep l acc).headD "" =
        String.mk (acc.reverse ++ l.takeWhile (neChar sep)) := by
  intro l
  induction l with
  | nil => intro acc; simp [splitCharAux]
  | cons c rest ih =>
    intro acc
    by_cases h : c = sep
    · subst h
      simp [splitCharAux, List.takeWhile_cons, neChar]
    · simp only [splitCharAux, if_neg h]
      rw [ih (c :: acc)]
      congr 1
      simp [List.reverse_cons, List.append_assoc, List.takeWhile_cons, neChar, h]

theorem pySplitChar_headD (sep : Char) (s : String) :
    (pySplitChar sep s).headD "" = String.mk (s.data.takeWhile (neChar sep)) := by
  rw [pySplitChar, splitCharAux_headD sep s.data []]
  simp

/-- C4 counterexample: on a stdout whose final separator is a tab, the
claim's reading ("trailing whitespace-delimited token") yields 4821, but
the code splits on single spaces only (`.split(' ')[-1]`) and `int()` then
fails (a ValueError, modelled as `none`), so the claim as stated is false
on this input. -/
theorem c4_whitespace_token_counterexample :
    slurmParseId "Submitted batch job\t4821" = none ∧
    specSlurmWsId "Submitted batch job\t4821" = some 4821 := by
  constructor
  · decide
  · decide

/-- C4 amended: for every submission whose submit command succeeds, the
slurm identifier is the trailing SPACE-delimited token (the characters
after the last space character) of the rstripped stdout, converted with
`int()`; the torque identifier is the integer before the first '.' of the
rstripped stdout; "Submitted batch job 4821" yields 4821 for slurm and
"4821.headnode" yields 4821 for torque. -/
theorem c4_id_parsing :
    (∀ s : String, slurmParseId s = pyInt (lastSpaceTok (pyRstrip s))) ∧
    (∀ s : String, torqueParseId s = pyInt (beforeFirstDot (pyRstrip s))) ∧
    slurmParseId "Submitted batch job 4821" = some 4821 ∧
    torqueParseId "4821.headnode" = some 4821 := by
  refine ⟨?_, ?_, by decide, by decide⟩
  · intro s
    rw [slurmParseId, pySplitChar_getLastD, lastSpaceTok]
  · intro s
    rw [torqueParseId, pySplitChar_headD, beforeFirstDot]

/-- C5: with a non-empty dependency list normalized to identifier strings,
the slurm path passes the single flag `--dependency=afterok:` followed by
the colon-joined identifiers, and the torque path the flag `-W depend=`
followed by the comma-joined `afterok:<id>` terms, each inserted between
the submit command and the script path; `[3, "7"]` normalizes to
`["3", "7"]` and yields `--dependency=afterok:3:7` resp.
`-W depend=afterok:3,afterok:7`. -/
theorem c5_dependency_flags (deps : List String) (f : String) (h : deps ≠ []) :
    slurmSubmitArgs deps f = ["sbatch", "--dependency=afterok:" ++ joinSep ":" deps, f] ∧
    torqueSubmitArgs deps f =
      ["qsub", "-W depend=" ++ joinSep "," (deps.map (fun d => "afterok:" ++ d)), f] ∧
    normalizeDeps [Dep.num 3, Dep.str "7"] = ["3", "7"] ∧
    slurmDepFlag (normalizeDeps [Dep.num 3, Dep.str "7"]) = "--dependency=afterok:3:7" ∧
    torqueDepFlag (normalizeDeps [Dep.num 3, Dep.str "7"]) = "-W depend=afterok:3,afterok:7" := by
  have hne : deps.isEmpty = false := by
    cases deps with
    | nil => exact absurd rfl h
    | cons a l => rfl
  refine ⟨?_, ?_, by decide, by decide, by decide⟩
  · simp [slurmSubmitArgs, slurmDepFlag, hne]
  · simp [torqueSubmitArgs, torqueDepFlag, hne]

/-- Witness for C5 at the dependency list ["3", "7"]. -/
theorem c5_dependency_flags_witness :
    slurmSubmitArgs ["3", "7"] "scr.sbatch" =
      ["sbatch", "--dependency=afterok:3:7", "scr.sbatch"] ∧
    torqueSubmitArgs ["3", "7"] "scr.qsub" =
      ["qsub", "-W depend=afterok:3,afterok:7", "scr.qsub"] := by
  constructor
  · rw [(c5_dependency_flags ["3", "7"] "scr.sbatch" (by decide)).1]
    decide
  · rw [(c5_dependency_flags ["3", "7"] "scr.qsub" (by decide)).2.1]
    decide

/-- C6 (the code against the claim): `clean` filters the listed names with
`os.path.isfile(i)` and deletes with `os.remove(f)` on the *bare* names,
which the OS resolves against the process working directory, not against
the `directory` argument.  Hence on a /data containing exactly
a.cluster.out, a.cluster and b.txt, run from /home, `clean('/data')`
removes nothing and returns `[]` — against the claim (and the function's
own docstring).  The claimed behaviour holds exactly when the working
directory IS the target directory; and cleaning an empty or non-matching
directory returns `[]` without error, as claimed. -/
theorem c6_clean_relative_path_bug :
    clean Queue.normal fsBug "/data" = (fsBug, []) ∧
    clean Queue.normal fsOk "/data" =
      (⟨"/data", [("/data", "b.txt")]⟩, ["a.cluster.out", "a.cluster"]) ∧
    (∀ (q : Queue) (d : String), clean q ⟨"/x", []⟩ d = (⟨"/x", []⟩, [])) ∧
    clean Queue.normal fsNoMatch "/data" = (fsNoMatch, []) := by
  refine ⟨by decide, by decide, ?_, by decide⟩
  intro q d
  simp [clean, fsListDir]

/-- C8: when the Script's target file already exists on disk and overwrite
is not requested, `write_file` changes nothing — disk unchanged, `written`
flag untouched, `None` returned; the write (setting `written` and
returning the path) happens exactly when the file does not exist or
overwrite was requested. -/
theorem c8_write_file_skip_if_exists (d : Disk) (s : ScriptObj) :
    (diskExists d s.file_name = true → write_file d s false = (d, s, none)) ∧
    (∀ ow : Bool, diskExists d s.file_name = false ∨ ow = true →
      write_file d s ow =
        (diskWrite d s.file_name (s.script ++ "\n"),
         { s with written := true }, some s.file_name)) := by
  constructor
  · intro h
    simp [write_file, h]
  · intro ow h
    rcases h with h | h
    · simp [write_file, h]
    · subst h
      simp [write_file]

/-- Witness for C8: on `dEx` the existing target /w/a.sh is skipped
unchanged, and the fresh target /w/b.sh is written with `written` set. -/
theorem c8_write_file_skip_if_exists_witness :
    write_file dEx sEx false = (dEx, sEx, none) ∧
    write_file dEx sExNew false =
      (diskWrite dEx "/w/b.sh" ("echo hi" ++ "\n"),
       { sExNew with written := true }, some "/w/b.sh") := by
  constructor
  · exact (c8_write_file_skip_if_exists dEx sEx).1 rfl
  · exact (c8_write_file_skip_if_exists dEx sExNew).2 false (Or.inl rfl)

/-- C9: for every non-callable value passed to `Function.__init__` as the
function to wrap, an error is raised at wrapper construction time, before
any script is written or executed, and nothing is deferred to execution
time of the generated script (no script object is even produced).  The
error is the NameError from the constructor's first statement (job.py:388
formats the shebang with `sys.version[0]` while the module never imports
`sys`); it fires for every input — so in particular for every non-callable
— and is not a callability check. -/
theorem c9_noncallable_construction_raises (f : PyObj) (h : isCallable f = false)
    (args : Option PyArgs) (fn : String) (imports : List String)
    (pickle_file outfile : Option String) :
    functionInit fn f args imports pickle_file outfile =
      Except.error (nameErrorMsg "sys") ∧
    jobModuleGlobals.contains "sys" = false := by
  constructor
  · rfl
  · rfl

/-- Witness for C9 at the concrete non-callable `nonCallableEx`. -/
theorem c9_noncallable_construction_raises_witness :
    functionInit "fn.py" nonCallableEx none ["os"] none none =
      Except.error (nameErrorMsg "sys") ∧
    isCallable nonCallableEx = false :=
  ⟨(c9_noncallable_construction_raises nonCallableEx rfl none "fn.py" ["os"]
      none none).1, rfl⟩

/-- C10: the `__getattr__` fallback of Script (inherited by Function)
returns Python None — not an AttributeError — for every attribute name it
does not specially handle, and for the one special name 'exists' it
returns whether the file at `file_name` exists on disk at the moment of
access. -/
theorem c10_getattr_none_fallback (d : Disk) (s : ScriptObj) :
    (∀ attr : String, attr ≠ "exists" → script_getattr d s attr = PyAttr.pyNone) ∧
    script_getattr d s "exists" = PyAttr.pyBool (diskExists d s.file_name) := by
  constructor
  · intro attr h
    simp [script_getattr, h]
  · simp [script_getattr]

/-- Witness for C10 on the concrete disk `dEx`. -/
theorem c10_getattr_none_fallback_witness :
    script_getattr dEx sEx "foo" = PyAttr.pyNone ∧
    script_getattr dEx sEx "exists" = PyAttr.pyBool true := by
  have h := c10_getattr_none_fallback dEx sEx
  refine ⟨h.1 "foo" (by decide), ?_⟩
  rw [h.2]
  decide

/-!  Machinery for C7: a line whose head mismatches every directive prefix
within its literal part is not a directive line, whatever is interpolated
after the head. -/

theorem pfxB_take_append (pat : List Char) :
    ∀ (b u : List Char), pfxB (pat.take b.length) b = false → pfxB pat (b ++ u) = false := by
  induction pat with
  | nil =>
    intro b u h
    simp [pfxB, List.take] at h
  | cons a p' ih =>
    intro b u h
    cases b with
    | nil => simp [pfxB, List.take] at h
    | cons c b' =>
      rw [List.length_cons, List.take_succ_cons, pfxB] at h
      rw [List.cons_append, pfxB]
      cases hac : (a == c) with
      | false => simp [hac]
      | true =>
        simp only [hac, Bool.true_and] at h ⊢
        exact ih b' u h

theorem lineSafe (l : String) (b u : List Char) (hl : l.data = b ++ u)
    (h : ∀ pa ∈ optDirPats, pfxB (pa.take b.length) b = false) :
    lineIsOptDirective l = false := by
  have hall : ∀ pa ∈ optDirPats, pfxB pa l.data = false := by
    intro pa hpa
    rw [hl]
    exact pfxB_take_append pa b u (h pa hpa)
  rw [lineIsOptDirective, List.any_eq_false]
  intro pa hpa
  simp [hall pa hpa]

theorem safe_head (hd tl : String)
    (h : ∀ pa ∈ optDirPats, pfxB (pa.take hd.data.length) hd.data = false) :
    lineIsOptDirective (hd ++ tl) = false :=
  lineSafe (hd ++ tl) hd.data tl.data (strData hd tl) h

theorem safe_cpus (c : Nat) :
    lineIsOptDirective ("#SBATCH --cpus-per-task " ++ toString c) = false :=
  safe_head _ _ (by decide)

theorem safe_sbatch_o (n : String) :
    lineIsOptDirective ("#SBATCH -o " ++ n ++ ".cluster.out") = false := by
  rw [strAssoc]
  exact safe_head _ _ (by decide)

theorem safe_sbatch_e (n : String) :
    lineIsOptDirective ("#SBATCH -e " ++ n ++ ".cluster.err") = false := by
  rw [strAssoc]
  exact safe_head _ _ (by decide)

theorem safe_cd (u : String) : lineIsOptDirective ("cd " ++ u) = false :=
  safe_head _ _ (by decide)

theorem safe_srun (u n : String) :
    lineIsOptDirective ("srun bash " ++ pjoin u n ++ ".script") = false := by
  rw [strAssoc]
  exact safe_head _ _ (by decide)

theorem safe_echo (n : String) :
    lineIsOptDirective ("echo \"Running " ++ n ++ "\"") = false := by
  rw [strAssoc]
  exact safe_head _ _ (by decide)

theorem safe_ppn (c : Nat) :
    lineIsOptDirective ("#PBS -l nodes=1:ppn=" ++ toString c) = false :=
  safe_head _ _ (by decide)

theorem safe_pbs_o (n : String) :
    lineIsOptDirective ("#PBS -o " ++ n ++ ".cluster.out") = false := by
  rw [strAssoc]
  exact safe_head _ _ (by decide)

theorem safe_pbs_e (n : String) :
    lineIsOptDirective ("#PBS -e " ++ n ++ ".cluster.err") = false := by
  rw [strAssoc]
  exact safe_head _ _ (by decide)

theorem precmdLines_safe (u n : String) :
    ∀ l ∈ precmdLines u n [], lineIsOptDirective l = false := by
  intro l hl
  simp only [precmdLines, List.map_nil, List.nil_append, List.mem_cons,
    List.not_mem_nil, or_false] at hl
  rcases hl with rfl | rfl | rfl | rfl
  · exact safe_cd u
  · decide
  · exact safe_echo n
  · decide

theorem pstcmdLines_safe : ∀ l ∈ pstcmdLines, lineIsOptDirective l = false := by
  decide

theorem allSafe_append {l₁ l₂ : List String}
    (h₁ : ∀ l ∈ l₁, lineIsOptDirective l = false)
    (h₂ : ∀ l ∈ l₂, lineIsOptDirective l = false) :
    ∀ l ∈ l₁ ++ l₂, lineIsOptDirective l = false := by
  intro l hl
  rcases List.mem_append.mp hl with h | h
  · exact h₁ l h
  · exact h₂ l h

/-- C7: when partition, wall-time, memory and modules are all unset, none
of the physical lines of any rendered script — slurm submission, slurm
execution, torque submission, or local submission — is a partition,
wall-time or memory directive or a module-load line (the unset field is
omitted entirely, not emitted empty); `cmdLines` are the command's own
physical lines (hypothesized directive-free, since the user's command text
is arbitrary), and the three '\n'-join equalities confirm that these line
lists are exactly the rendered texts. -/
theorem c7_unset_fields_render_no_directives (p : JobParams) (cmdLines : List String)
    (hp : p.partition = none) (ht : p.time = none) (hm : p.mem = none)
    (hmods : p.modules = []) (hc : cmdLines ≠ [])
    (hcmd : p.command = joinLines cmdLines)
    (hsafe : ∀ l ∈ cmdLines, lineIsOptDirective l = false) :
    (∀ l ∈ slurmSubChunks p, lineIsOptDirective l = false) ∧
    (∀ l ∈ slurmExeAllLines p cmdLines, lineIsOptDirective l = false) ∧
    (∀ l ∈ torqueSubAllLines p cmdLines, lineIsOptDirective l = false) ∧
    (∀ l ∈ normalSubAllLines p cmdLines, lineIsOptDirective l = false) ∧
    joinLines (slurmExeAllLines p cmdLines) = slurmExeText p ∧
    joinLines (torqueSubAllLines p cmdLines) = torqueSubText p ∧
    joinLines (normalSubAllLines p cmdLines) = normalSubText p := by
  have hpre := precmdLines_safe p.usedir p.name
  refine ⟨?_, ?_, ?_, ?_, ?_, ?_, ?_⟩
  · intro l hl
    simp only [slurmSubChunks, hp, ht, hm, optDirective, List.nil_append, List.append_nil,
      List.cons_append, List.mem_cons, List.not_mem_nil, or_false] at hl
    rcases hl with rfl | rfl | rfl | rfl | rfl | rfl | rfl
    · decide
    · decide
    · exact safe_cpus p.cores
    · exact safe_sbatch_o p.name
    · exact safe_sbatch_e p.name
    · exact safe_cd p.usedir
    · exact safe_srun p.usedir p.name
  · rw [slurmExeAllLines, hmods]
    exact allSafe_append
      (allSafe_append (allSafe_append (allSafe_append (by decide) hpre) hsafe) (by decide))
      pstcmdLines_safe
  · rw [torqueSubAllLines, hp, ht, hm, hmods]
    simp only [optDirective, List.nil_append, List.append_nil]
    refine allSafe_append (allSafe_append (allSafe_append ?_ hpre) hsafe) pstcmdLines_safe
    intro l hl
    simp only [List.mem_append, List.mem_cons, List.not_mem_nil, or_false,
      List.mem_singleton] at hl
    rcases hl with (rfl | rfl) | (rfl | rfl | rfl | rfl)
    · decide
    · exact safe_ppn p.cores
    · exact safe_pbs_o p.name
    · exact safe_pbs_e p.name
    · decide
    · decide
  · rw [normalSubAllLines, hmods]
    exact allSafe_append
      (allSafe_append (allSafe_append (allSafe_append (by decide) hpre) hsafe) (by decide))
      pstcmdLines_safe
  · rw [slurmExeAllLines, hmods,
      show (["#!/bin/bash", "mkdir -p $LOCAL_SCRATCH"] ++ precmdLines p.usedir p.name []
          ++ cmdLines ++ [""] ++ pstcmdLines : List String) =
        ["#!/bin/bash", "mkdir -p $LOCAL_SCRATCH", "cd " ++ p.usedir, dateLine,
          "echo \"Running " ++ p.name ++ "\"", ""] ++ (cmdLines ++ ("" :: pstcmdLines))
        from by simp [precmdLines, List.append_assoc],
      joinLines_append _ _ (by simp) (by simp),
      joinLines_append cmdLines _ hc (by simp), ← hcmd]
    simp only [joinLines, pstcmdLines, slurmExeText, slurmExeChunks, precmd, hmods,
      moduleLoads, precmdTail, pstcmd, strAssoc, strNilL, strNilR]
  · rw [torqueSubAllLines, hp, ht, hm, hmods,
      show (["#!/bin/bash"] ++ optDirective none (fun q => "#PBS -q " ++ q)
          ++ ["#PBS -l nodes=1:ppn=" ++ toString p.cores]
          ++ optDirective none (fun t => "#PBS -l walltime=" ++ t)
          ++ optDirective none (fun m => "#PBS mem=" ++ m ++ "MB")
          ++ ["#PBS -o " ++ p.name ++ ".cluster.out",
              "#PBS -e " ++ p.name ++ ".cluster.err", "",
              "mkdir -p $LOCAL_SCRATCH"]
          ++ precmdLines p.usedir p.name []
          ++ cmdLines ++ pstcmdLines : List String) =
        ["#!/bin/bash", "#PBS -l nodes=1:ppn=" ++ toString p.cores,
          "#PBS -o " ++ p.name ++ ".cluster.out",
          "#PBS -e " ++ p.name ++ ".cluster.err", "",
          "mkdir -p $LOCAL_SCRATCH", "cd " ++ p.usedir, dateLine,
          "echo \"Running " ++ p.name ++ "\"", ""] ++ (cmdLines ++ pstcmdLines)
        from by simp [precmdLines, optDirective, List.append_assoc],
      joinLines_append _ _ (by simp) (by simp [pstcmdLines]),
      joinLines_append cmdLines _ hc (by simp [pstcmdLines]), ← hcmd]
    simp only [joinLines, pstcmdLines, torqueSubText, torqueSubChunks, hp, ht, hm, precmd,
      hmods, moduleLoads, precmdTail, pstcmd, optDirective, List.nil_append, List.append_nil,
      List.cons_append, strAssoc, strNilL, strNilR]
  · rw [normalSubAllLines, hmods,
      show (["#!/bin/bash", ""] ++ precmdLines p.usedir p.name []
          ++ cmdLines ++ [""] ++ pstcmdLines : List String) =
        ["#!/bin/bash", "", "cd " ++ p.usedir, dateLine,
          "echo \"Running " ++ p.name ++ "\"", ""] ++ (cmdLines ++ ("" :: pstcmdLines))
        from by simp [precmdLines, List.append_assoc],
      joinLines_append _ _ (by simp) (by simp),
      joinLines_append cmdLines _ hc (by simp), ← hcmd]
    simp only [joinLines, pstcmdLines, normalSubText, normalSubChunks, precmd, hmods,
      moduleLoads, precmdTail, pstcmd, strAssoc, strNilL, strNilR]

/-- Witness for C7 at the concrete job `pEx` with single-line command
"true". -/
theorem c7_unset_fields_render_no_directives_witness :
    (∀ l ∈ slurmSubChunks pEx, lineIsOptDirective l = false) ∧
    (∀ l ∈ slurmExeAllLines pEx ["true"], lineIsOptDirective l = false) ∧
    (∀ l ∈ torqueSubAllLines pEx ["true"], lineIsOptDirective l = false) ∧
    (∀ l ∈ normalSubAllLines pEx ["true"], lineIsOptDirective l = false) ∧
    joinLines (slurmExeAllLines pEx ["true"]) = slurmExeText pEx ∧
    joinLines (torqueSubAllLines pEx ["true"]) = torqueSubText pEx ∧
    joinLines (normalSubAllLines pEx ["true"]) = normalSubText pEx :=
  c7_unset_fields_render_no_directives pEx ["true"] rfl rfl rfl rfl (by decide) rfl (by decide)

end Fyrd
